import Mathlib

/-!
Shallow embedding of the payment-webhook-processor service
(`src/main.py`, `src/models.py`).

The Transaction Store (Supabase) is an external collaborator; its
responses that the Python client can observe — a raised exception on
lookup, a raised exception on insert (store unavailable or a
unique-constraint conflict caused by a concurrent writer), a raised
exception on update — are supplied as oracle flags.  A successful store
call is modelled directly on the list of records.  The Python
`except Exception` handlers are embedded by making every handler total:
an exception caught in the source corresponds to a branch here, so the
functions never "raise".

Timestamps are abstract time units (`Nat`); the payload `amount` is
modelled as `Int` (the claims never compute with it).
-/

namespace PaymentWebhook

/-- Lifecycle states of a transaction record (`status` column). -/
inductive Status where
  | PROCESSING
  | PROCESSED
deriving DecidableEq, Repr

/-- A persisted transaction record, mirroring the dict built in
`receive_webhook` (src/main.py lines 79-90). -/
structure TransactionRecord where
  transaction_id : String
  source_account : String
  destination_account : String
  amount : Int
  currency : String
  status : Status
  created_at : Nat
  processed_at : Option Nat
deriving DecidableEq, Repr

/-- The `transactions` table of the store. -/
abbrev Store := List TransactionRecord

/-- `supabase.table("transactions").select("*").eq("transaction_id", id)`:
the first (and, in reachable states, only) record with the given id. -/
def findById (s : Store) (id : String) : Option TransactionRecord :=
  s.find? (fun r => r.transaction_id == id)

/-- `supabase.table("transactions").insert(record)`: a plain insert. -/
def insertRecord (s : Store) (r : TransactionRecord) : Store :=
  s ++ [r]

/-- The field update performed by `process_transaction`: set
`status = PROCESSED` and `processed_at`. -/
def setProcessed (r : TransactionRecord) (t : Nat) : TransactionRecord :=
  { r with status := Status.PROCESSED, processed_at := some t }

/-- `supabase.table("transactions").update({status, processed_at}).eq("transaction_id", id)`:
update every record matching the id (a no-op when none matches; the
client does not raise on a zero-row update). -/
def updateProcessed (s : Store) (id : String) (t : Nat) : Store :=
  s.map (fun r => if r.transaction_id == id then setProcessed r t else r)

/-- Observable log entries emitted through `logger` in src/main.py. -/
inductive LogEntry where
  | infoDuplicate (id : String)
  | infoQueued (id : String)
  | infoStart (id : String)
  | infoProcessed (id : String)
  | errorProcessing (id : String)
  | errorWebhook
  | errorRetrieving
deriving DecidableEq, Repr

/-- Whether a log entry is emitted at error level (`logger.error`). -/
def LogEntry.isError : LogEntry → Bool
  | LogEntry.errorProcessing _ => true
  | LogEntry.errorWebhook => true
  | LogEntry.errorRetrieving => true
  | _ => false

/-- Whole-system state: the durable store, the background tasks scheduled
via `background_tasks.add_task` (each carries the `transaction_record`
dict it was scheduled with), and the log. -/
structure AppState where
  store : Store
  tasks : List TransactionRecord
  log : List LogEntry
deriving DecidableEq, Repr

/-- The initial state: empty table, nothing scheduled, empty log. -/
def initState : AppState := { store := [], tasks := [], log := [] }

/-- A validated webhook body (`WebhookRequest` in src/models.py). -/
structure WebhookRequest where
  transaction_id : String
  source_account : String
  destination_account : String
  amount : Int
  currency : String
deriving DecidableEq, Repr

/-- A raw inbound JSON body before pydantic validation: each expected
field is present (with a value of the declared type) or absent.  A
field of the wrong JSON type is modelled as absent, since pydantic
rejects both the same way. -/
structure RawPayload where
  transaction_id : Option String
  source_account : Option String
  destination_account : Option String
  amount : Option Int
  currency : Option String
deriving DecidableEq, Repr

/-- Pydantic validation of `WebhookRequest` (src/models.py lines 6-11):
every field is required, each with a plain type annotation; there is no
non-emptiness or range constraint. -/
def validatePayload (p : RawPayload) : Option WebhookRequest :=
  match p.transaction_id, p.source_account, p.destination_account,
        p.amount, p.currency with
  | some tid, some src, some dst, some amt, some cur =>
      some { transaction_id := tid, source_account := src,
             destination_account := dst, amount := amt, currency := cur }
  | _, _, _, _, _ => none

/-- Oracle for the store's behaviour during one `receive_webhook` call:
`lookupRaises` — the select raises (store unavailable);
`insertRaises` — the insert raises with the store unavailable;
`insertConflicts` — the insert raises with a unique-key violation
(a row with this id appeared between the lookup and the insert). -/
structure StoreFault where
  lookupRaises : Bool
  insertRaises : Bool
  insertConflicts : Bool
deriving DecidableEq, Repr

/-- A fully healthy store interaction. -/
def noFault : StoreFault :=
  { lookupRaises := false, insertRaises := false, insertConflicts := false }

/-- The record inserted for a newly admitted webhook
(src/main.py lines 79-90). -/
def mkRecord (w : WebhookRequest) (now : Nat) : TransactionRecord :=
  { transaction_id := w.transaction_id,
    source_account := w.source_account,
    destination_account := w.destination_account,
    amount := w.amount,
    currency := w.currency,
    status := Status.PROCESSING,
    created_at := now,
    processed_at := none }

/-- `receive_webhook` (src/main.py lines 56-104), after pydantic
validation succeeded.  Returns the HTTP status code and the new state.
Control flow: look the id up; if found, log and return 202 unchanged;
otherwise insert the new record, schedule the background task and
return 202.  Any exception raised by a store call is caught by the
`except Exception` handler, which logs and returns 500 — so a failed
lookup or a failed/conflicting insert yields 500 with no task
scheduled. -/
def receive_webhook (f : StoreFault) (now : Nat) (w : WebhookRequest)
    (st : AppState) : Nat × AppState :=
  if f.lookupRaises then
    (500, { st with log := st.log ++ [LogEntry.errorWebhook] })
  else
    match findById st.store w.transaction_id with
    | some _ =>
        (202, { st with
                  log := st.log ++ [LogEntry.infoDuplicate w.transaction_id] })
    | none =>
        if f.insertRaises || f.insertConflicts then
          (500, { st with log := st.log ++ [LogEntry.errorWebhook] })
        else
          let r := mkRecord w now
          (202, { store := insertRecord st.store r,
                  tasks := st.tasks ++ [r],
                  log := st.log ++ [LogEntry.infoQueued w.transaction_id] })

/-- The full webhook endpoint `POST /v1/webhooks/transactions`:
FastAPI runs pydantic validation first; a body that fails validation is
rejected with 422 before the handler body runs, so the store is never
touched. -/
def handle_webhook (f : StoreFault) (now : Nat) (p : RawPayload)
    (st : AppState) : Nat × AppState :=
  match validatePayload p with
  | none => (422, st)
  | some w => receive_webhook f now w st

/-- The fixed finalization delay: `await asyncio.sleep(30)`
(src/main.py line 29). -/
def finalizationDelay : Nat := 30

/-- `process_transaction` (src/main.py lines 19-42): the background task.
It starts at `startTime`, logs, sleeps `finalizationDelay`, then updates
the record matching `td.transaction_id` to `PROCESSED` with
`processed_at` the current time (`startTime + finalizationDelay`).
`updateRaises` is the oracle for the store raising on the update; the
`except Exception` handler catches it and logs, so the function is
total — no exception escapes the task. A zero-row update (record
vanished) does not raise, so that branch logs success. -/
def process_transaction (updateRaises : Bool) (startTime : Nat)
    (td : TransactionRecord) (st : AppState) : AppState :=
  let id := td.transaction_id
  let st1 := { st with log := st.log ++ [LogEntry.infoStart id] }
  if updateRaises then
    { st1 with log := st1.log ++ [LogEntry.errorProcessing id] }
  else
    { st1 with
        store := updateProcessed st1.store id (startTime + finalizationDelay),
        log := st1.log ++ [LogEntry.infoProcessed id] }

/-- The body returned by `GET /v1/transactions/{id}`
(`TransactionResponse` in src/models.py). -/
structure TransactionResponse where
  transaction_id : String
  source_account : String
  destination_account : String
  amount : Int
  currency : String
  status : Status
  created_at : Nat
  processed_at : Option Nat
deriving DecidableEq, Repr

/-- `get_transaction` (src/main.py lines 107-137): look the id up; 404
if absent, else 200 with the record's fields.  A raised lookup is caught
and surfaced as 500.  The returned `AppState` is the state after the
call (the handler performs no write). -/
def get_transaction (lookupRaises : Bool) (id : String)
    (st : AppState) : Nat × Option TransactionResponse × AppState :=
  if lookupRaises then
    (500, none, { st with log := st.log ++ [LogEntry.errorRetrieving] })
  else
    match findById st.store id with
    | none => (404, none, st)
    | some r =>
        (200,
         some { transaction_id := r.transaction_id,
                source_account := r.source_account,
                destination_account := r.destination_account,
                amount := r.amount,
                currency := r.currency,
                status := r.status,
                created_at := r.created_at,
                processed_at := r.processed_at },
         st)

/-- One observable operation of the system. -/
inductive Op where
  | webhook (f : StoreFault) (now : Nat) (p : RawPayload)
  | finalize (updateRaises : Bool) (startTime : Nat) (td : TransactionRecord)
  | query (lookupRaises : Bool) (id : String)

/-- State transition of a single operation (response discarded). -/
def step (st : AppState) : Op → AppState
  | Op.webhook f now p => (handle_webhook f now p st).2
  | Op.finalize u t td => process_transaction u t td st
  | Op.query l id => (get_transaction l id st).2.2

/-- The state reached from the initial state by a sequence of
operations. -/
def run (ops : List Op) : AppState :=
  ops.foldl step initState

/-- Submit the same (validated) payload `n` times sequentially with a
healthy store; returns the final state and the list of response
codes. -/
def submit_times (now : Nat) (w : WebhookRequest) :
    Nat → AppState → AppState × List Nat
  | 0, st => (st, [])
  | n + 1, st =>
      let res := receive_webhook noFault now w st
      let rest := submit_times now w n res.2
      (rest.1, res.1 :: rest.2)

/-! ## Basic lemmas about the store operations -/

/-- A record found before an append is still the one found after. -/
lemma findById_append_of_some {s : Store} {id : String} {r : TransactionRecord}
    (h : findById s id = some r) (l : Store) : findById (s ++ l) id = some r := by
  unfold findById at *
  rw [List.find?_append, h]
  rfl

/-- When nothing matches in the prefix, lookup continues in the suffix. -/
lemma findById_append_of_none {s : Store} {id : String}
    (h : findById s id = none) (l : Store) : findById (s ++ l) id = findById l id := by
  unfold findById at *
  rw [List.find?_append, h, Option.none_or]

/-- Lookup commutes with a map that preserves `transaction_id`. -/
lemma findById_map_preserving (s : Store) (f : TransactionRecord → TransactionRecord)
    (hf : ∀ r, (f r).transaction_id = r.transaction_id) (id : String) :
    findById (s.map f) id = (findById s id).map f := by
  unfold findById
  rw [List.find?_map]
  have hp : ((fun r => r.transaction_id == id) ∘ f)
      = (fun r : TransactionRecord => r.transaction_id == id) := by
    funext r
    simp [Function.comp, hf]
  rw [hp]

/-- The finalization update preserves `transaction_id`. -/
lemma setProcessed_transaction_id (r : TransactionRecord) (t : Nat) :
    (setProcessed r t).transaction_id = r.transaction_id := rfl

/-- Characterisation of lookup after the finalization update. -/
lemma findById_updateProcessed (s : Store) (tid id : String) (t : Nat) :
    findById (updateProcessed s tid t) id
      = (findById s id).map
          (fun r => if r.transaction_id == tid then setProcessed r t else r) := by
  unfold updateProcessed
  exact findById_map_preserving s _ (fun r => by split <;> rfl) id

/-- A zero-row update leaves the store exactly as it was. -/
lemma updateProcessed_of_absent {s : Store} {id : String}
    (h : findById s id = none) (t : Nat) : updateProcessed s id t = s := by
  unfold findById at h
  rw [List.find?_eq_none] at h
  unfold updateProcessed
  have : ∀ r ∈ s, (if r.transaction_id == id then setProcessed r t else r) = r := by
    intro r hr
    simp [h r hr]
  rw [List.map_congr_left this]
  simp

/-- A successful lookup on an empty filter result is impossible: absence of
the id makes the id-filter empty. -/
lemma filter_eq_nil_of_findById_none {s : Store} {id : String}
    (h : findById s id = none) :
    s.filter (fun r => r.transaction_id == id) = [] := by
  unfold findById at h
  rw [List.find?_eq_none] at h
  rw [List.filter_eq_nil_iff]
  exact h

/-- Inserting the admitted record makes it findable under its id. -/
lemma findById_insert_mkRecord {s : Store} {w : WebhookRequest} (now : Nat)
    (h : findById s w.transaction_id = none) :
    findById (insertRecord s (mkRecord w now)) w.transaction_id
      = some (mkRecord w now) := by
  unfold insertRecord
  rw [findById_append_of_none h]
  simp [findById, mkRecord]

/-! ## Unfolding lemmas for `receive_webhook` -/

/-- The duplicate path: the id is already present, nothing but the log
changes and the response is 202. -/
lemma receive_webhook_found {st : AppState} {w : WebhookRequest}
    {r : TransactionRecord}
    (h : findById st.store w.transaction_id = some r) (now : Nat) :
    receive_webhook noFault now w st =
      (202, { st with
                log := st.log ++ [LogEntry.infoDuplicate w.transaction_id] }) := by
  unfold receive_webhook noFault
  simp [h]

/-- The admission path: the id is absent, the record is inserted and the
background task scheduled. -/
lemma receive_webhook_new {st : AppState} {w : WebhookRequest}
    (h : findById st.store w.transaction_id = none) (now : Nat) :
    receive_webhook noFault now w st =
      (202, { store := insertRecord st.store (mkRecord w now),
              tasks := st.tasks ++ [mkRecord w now],
              log := st.log ++ [LogEntry.infoQueued w.transaction_id] }) := by
  unfold receive_webhook noFault
  simp [h]

/-- Once the id is present, any number of further submissions changes
neither the store nor the scheduled tasks, and each returns 202. -/
lemma submit_times_found (now : Nat) (w : WebhookRequest) (r : TransactionRecord) :
    ∀ (n : Nat) (st : AppState), findById st.store w.transaction_id = some r →
      (submit_times now w n st).1.store = st.store ∧
      (submit_times now w n st).1.tasks = st.tasks ∧
      (submit_times now w n st).2 = List.replicate n 202 := by
  intro n
  induction n with
  | zero =>
      intro st _
      exact ⟨rfl, rfl, rfl⟩
  | succ k ih =>
      intro st h
      have hstep := receive_webhook_found h now
      have h2 : findById (receive_webhook noFault now w st).2.store
          w.transaction_id = some r := by rw [hstep]; exact h
      have hrec := ih (receive_webhook noFault now w st).2 h2
      refine ⟨?_, ?_, ?_⟩
      · show (submit_times now w k (receive_webhook noFault now w st).2).1.store
            = st.store
        rw [hrec.1, hstep]
      · show (submit_times now w k (receive_webhook noFault now w st).2).1.tasks
            = st.tasks
        rw [hrec.2.1, hstep]
      · show (receive_webhook noFault now w st).1
            :: (submit_times now w k (receive_webhook noFault now w st).2).2
            = List.replicate (k + 1) 202
        rw [hrec.2.2, hstep, List.replicate_succ]

/-! ## How a single operation can change the store -/

/-- Every operation either leaves the store alone, inserts a fresh
`PROCESSING` record for an id that was absent, or applies the
finalization update for some id. -/
lemma step_store_cases (st : AppState) (op : Op) :
    (step st op).store = st.store ∨
    (∃ w now, findById st.store w.transaction_id = none ∧
        (step st op).store = insertRecord st.store (mkRecord w now)) ∨
    (∃ id t, (step st op).store = updateProcessed st.store id t) := by
  cases op with
  | webhook f now p =>
      show ((handle_webhook f now p st).2.store = st.store ∨ _)
      unfold handle_webhook
      cases hv : validatePayload p with
      | none => left; rfl
      | some w =>
          unfold receive_webhook
          by_cases hl : f.lookupRaises
          · left; simp [hl]
          · cases hf : findById st.store w.transaction_id with
            | some r => left; simp [hl, hf]
            | none =>
                by_cases hi : f.insertRaises || f.insertConflicts
                · left; simp [hl, hf, hi]
                · right; left
                  refine ⟨w, now, hf, ?_⟩
                  show (handle_webhook f now p st).2.store = _
                  unfold handle_webhook
                  rw [hv]
                  unfold receive_webhook
                  simp [hl, hf, hi]
  | finalize u t td =>
      cases u with
      | true => left; rfl
      | false =>
          right; right
          exact ⟨td.transaction_id, t + finalizationDelay, rfl⟩
  | query l id =>
      left
      cases l with
      | true => rfl
      | false =>
          show (get_transaction false id st).2.2.store = st.store
          unfold get_transaction
          cases hf : findById st.store id <;> simp [hf]

/-! ## Example inputs shared by the concrete witnesses -/

/-- A representative validated webhook payload. -/
def wEx : WebhookRequest :=
  { transaction_id := "t1", source_account := "acc_user_001",
    destination_account := "acc_merchant_001", amount := 2500,
    currency := "USD" }

/-- The raw body corresponding to `wEx`. -/
def pEx : RawPayload :=
  { transaction_id := some "t1", source_account := some "acc_user_001",
    destination_account := some "acc_merchant_001", amount := some 2500,
    currency := some "USD" }

/-- The record created for `wEx` at time 0. -/
def rEx : TransactionRecord := mkRecord wEx 0

/-- A one-record state: `wEx` admitted at time 0 and its task scheduled. -/
def stOne : AppState := { store := [rEx], tasks := [rEx], log := [] }

/-! ## C1 -/

/-- C1: starting from any state in which the transaction id is absent from
the store and no task for it is scheduled, submitting the payload `n ≥ 1`
times sequentially (healthy store) returns 202 every time, leaves exactly
one record and exactly one scheduled task for that id, and every
submission after the first changes neither the store nor the tasks (the
final store and tasks equal those right after the first submission). -/
theorem c1_sequential_idempotency (st : AppState) (now : Nat)
    (w : WebhookRequest) (n : Nat) (hn : 1 ≤ n)
    (hid : findById st.store w.transaction_id = none)
    (htasks : st.tasks.filter (fun r => r.transaction_id == w.transaction_id)
        = []) :
    (submit_times now w n st).2 = List.replicate n 202 ∧
    ((submit_times now w n st).1.store.filter
        (fun r => r.transaction_id == w.transaction_id)).length = 1 ∧
    ((submit_times now w n st).1.tasks.filter
        (fun r => r.transaction_id == w.transaction_id)).length = 1 ∧
    (submit_times now w n st).1.store
        = (receive_webhook noFault now w st).2.store ∧
    (submit_times now w n st).1.tasks
        = (receive_webhook noFault now w st).2.tasks := by
  obtain ⟨m, rfl⟩ : ∃ m, n = m + 1 := by
    cases n with
    | zero => exact absurd hn (by simp)
    | succ m => exact ⟨m, rfl⟩
  have hstep := receive_webhook_new hid now
  have hpresent : findById (receive_webhook noFault now w st).2.store
      w.transaction_id = some (mkRecord w now) := by
    rw [hstep]
    exact findById_insert_mkRecord now hid
  have hrest := submit_times_found now w (mkRecord w now) m
      (receive_webhook noFault now w st).2 hpresent
  have hstore : (submit_times now w (m + 1) st).1.store
      = (receive_webhook noFault now w st).2.store := hrest.1
  have htasks2 : (submit_times now w (m + 1) st).1.tasks
      = (receive_webhook noFault now w st).2.tasks := hrest.2.1
  refine ⟨?_, ?_, ?_, hstore, htasks2⟩
  · show (receive_webhook noFault now w st).1
        :: (submit_times now w m (receive_webhook noFault now w st).2).2
        = List.replicate (m + 1) 202
    rw [hrest.2.2, hstep, List.replicate_succ]
  · rw [hstore, hstep]
    show ((insertRecord st.store (mkRecord w now)).filter
        (fun r => r.transaction_id == w.transaction_id)).length = 1
    unfold insertRecord
    rw [List.filter_append, filter_eq_nil_of_findById_none hid]
    simp [mkRecord]
  · rw [htasks2, hstep]
    show ((st.tasks ++ [mkRecord w now]).filter
        (fun r => r.transaction_id == w.transaction_id)).length = 1
    rw [List.filter_append, htasks]
    simp [mkRecord]

/-- Concrete instantiation of C1: three submissions of the same payload
from the empty state all return 202 and leave one record and one task. -/
theorem c1_sequential_idempotency_witness :
    (submit_times 0 wEx 3 initState).2 = [202, 202, 202] ∧
    ((submit_times 0 wEx 3 initState).1.store.filter
        (fun r => r.transaction_id == "t1")).length = 1 ∧
    ((submit_times 0 wEx 3 initState).1.tasks.filter
        (fun r => r.transaction_id == "t1")).length = 1 := by
  have h := c1_sequential_idempotency initState 0 wEx 3 (by decide) rfl rfl
  exact ⟨h.1.trans (by decide), h.2.1, h.2.2.1⟩

/-! ## C10 -/

/-- C10: duplicate detection is keyed by `transaction_id` alone — for any
payload whose id is already stored, whatever its other fields, the
endpoint returns 202 and neither the store (so the original record's
fields) nor the scheduled tasks change. -/
theorem c10_duplicate_by_id_alone (st : AppState) (now : Nat)
    (w : WebhookRequest) (r : TransactionRecord)
    (h : findById st.store w.transaction_id = some r) :
    (receive_webhook noFault now w st).1 = 202 ∧
    (receive_webhook noFault now w st).2.store = st.store ∧
    (receive_webhook noFault now w st).2.tasks = st.tasks := by
  rw [receive_webhook_found h now]
  exact ⟨rfl, rfl, rfl⟩

/-- Concrete instantiation of C10: resubmitting id "t1" with a different
amount and different accounts still returns 202 and leaves the stored
record untouched. -/
theorem c10_duplicate_by_id_alone_witness :
    (receive_webhook noFault 7
        { transaction_id := "t1", source_account := "other_src",
          destination_account := "other_dst", amount := 999,
          currency := "EUR" } stOne).1 = 202 ∧
    (receive_webhook noFault 7
        { transaction_id := "t1", source_account := "other_src",
          destination_account := "other_dst", amount := 999,
          currency := "EUR" } stOne).2.store = stOne.store := by
  have h := c10_duplicate_by_id_alone stOne 7
      { transaction_id := "t1", source_account := "other_src",
        destination_account := "other_dst", amount := 999,
        currency := "EUR" } rEx (by decide)
  exact ⟨h.1, h.2.1⟩

/-! ## C2 -/

/-- C2 counterexample: a request whose insert hits a unique-key conflict
(the id was absent at lookup but a row appeared at write time) does NOT
get the Duplicate treatment — the raised conflict is caught by the
generic handler and the endpoint returns 500, not 202.  No task is
scheduled. -/
theorem c2_counterexample :
    (receive_webhook
        { lookupRaises := false, insertRaises := false,
          insertConflicts := true } 0 wEx initState).1 = 500 ∧
    (receive_webhook
        { lookupRaises := false, insertRaises := false,
          insertConflicts := true } 0 wEx initState).1 ≠ 202 ∧
    (receive_webhook
        { lookupRaises := false, insertRaises := false,
          insertConflicts := true } 0 wEx initState).2.tasks = [] := by
  decide

/-- C2 amended: the create step is a plain insert guarded only by the
earlier read; a request whose insert fails with a unique-constraint
violation is caught by the catch-all handler and returns 500 (an
infrastructure error, not the Duplicate 202), schedules no Deferred
Processor unit, and writes nothing itself. -/
theorem c2_insert_conflict_is_500 (st : AppState) (now : Nat)
    (w : WebhookRequest) (f : StoreFault)
    (hl : f.lookupRaises = false)
    (hc : f.insertConflicts = true)
    (h : findById st.store w.transaction_id = none) :
    (receive_webhook f now w st).1 = 500 ∧
    (receive_webhook f now w st).2.tasks = st.tasks ∧
    (receive_webhook f now w st).2.store = st.store := by
  unfold receive_webhook
  simp [hl, hc, h]

/-- Concrete instantiation of the amended C2. -/
theorem c2_insert_conflict_is_500_witness :
    (receive_webhook
        { lookupRaises := false, insertRaises := false,
          insertConflicts := true } 3 wEx initState).1 = 500 ∧
    (receive_webhook
        { lookupRaises := false, insertRaises := false,
          insertConflicts := true } 3 wEx initState).2.tasks
      = initState.tasks := by
  have h := c2_insert_conflict_is_500 initState 3 wEx
      { lookupRaises := false, insertRaises := false, insertConflicts := true }
      rfl rfl (by decide)
  exact ⟨h.1, h.2.1⟩

/-! ## C3 -/

/-- C3: whenever a store interaction of the admission path fails — the
lookup raises, or the id is absent and the insert raises or conflicts —
the endpoint returns 500 (never 202/Admitted), schedules no Deferred
Processor unit, and leaves the store unchanged. -/
theorem c3_store_failure_no_false_admit (st : AppState) (now : Nat)
    (w : WebhookRequest) (f : StoreFault)
    (h : f.lookupRaises = true ∨
         (f.lookupRaises = false ∧
          findById st.store w.transaction_id = none ∧
          (f.insertRaises = true ∨ f.insertConflicts = true))) :
    (receive_webhook f now w st).1 = 500 ∧
    (receive_webhook f now w st).1 ≠ 202 ∧
    (receive_webhook f now w st).2.tasks = st.tasks ∧
    (receive_webhook f now w st).2.store = st.store := by
  unfold receive_webhook
  rcases h with hl | ⟨hl, hid, hins⟩
  · simp [hl]
  · rcases hins with hi | hi <;> simp [hl, hid, hi]

/-- Concrete instantiation of C3: a raised lookup yields 500 and no
scheduling. -/
theorem c3_store_failure_no_false_admit_witness :
    (receive_webhook
        { lookupRaises := true, insertRaises := false,
          insertConflicts := false } 0 wEx initState).1 = 500 ∧
    (receive_webhook
        { lookupRaises := true, insertRaises := false,
          insertConflicts := false } 0 wEx initState).2.tasks = [] := by
  have h := c3_store_failure_no_false_admit initState 0 wEx
      { lookupRaises := true, insertRaises := false, insertConflicts := false }
      (Or.inl rfl)
  exact ⟨h.1, h.2.2.1⟩

/-! ## C4 -/

/-- C4: per-operation status monotonicity for any id.  (i) A record whose
status is PROCESSED stays present with status PROCESSED after any
operation; (ii) a record that first appears after an operation has been
created with status PROCESSING; (iii) if the record exists before and
after, its status either is unchanged or moves PROCESSING → PROCESSED —
no other transition exists. -/
theorem c4_status_transitions (st : AppState) (op : Op) (id : String) :
    (∀ r, findById st.store id = some r → r.status = Status.PROCESSED →
        ∃ r', findById (step st op).store id = some r' ∧
          r'.status = Status.PROCESSED) ∧
    (findById st.store id = none →
        ∀ r', findById (step st op).store id = some r' →
          r'.status = Status.PROCESSING) ∧
    (∀ r r', findById st.store id = some r →
        findById (step st op).store id = some r' →
        r'.status = r.status ∨
          (r.status = Status.PROCESSING ∧ r'.status = Status.PROCESSED)) := by
  rcases step_store_cases st op with hc | ⟨w, now, hnone, hc⟩ | ⟨tid, t, hc⟩
  · refine ⟨?_, ?_, ?_⟩
    · intro r h hp
      exact ⟨r, by rw [hc]; exact h, hp⟩
    · intro h r' h'
      rw [hc, h] at h'
      exact absurd h' (by simp)
    · intro r r' h h'
      rw [hc, h] at h'
      cases h'
      exact Or.inl rfl
  · refine ⟨?_, ?_, ?_⟩
    · intro r h hp
      refine ⟨r, ?_, hp⟩
      rw [hc]
      exact findById_append_of_some h _
    · intro h r' h'
      rw [hc] at h'
      unfold insertRecord at h'
      rw [findById_append_of_none h] at h'
      unfold findById at h'
      cases hm : (mkRecord w now).transaction_id == id with
      | true => simp [List.find?_cons, hm] at h'; rw [← h']; rfl
      | false => simp [List.find?_cons, hm] at h'
    · intro r r' h h'
      rw [hc] at h'
      unfold insertRecord at h'
      rw [findById_append_of_some h] at h'
      cases h'
      exact Or.inl rfl
  · have hchar : ∀ r, findById st.store id = some r →
        findById (step st op).store id
          = some (if r.transaction_id == tid then setProcessed r t else r) := by
      intro r h
      rw [hc, findById_updateProcessed, h]
      rfl
    refine ⟨?_, ?_, ?_⟩
    · intro r h hp
      refine ⟨_, hchar r h, ?_⟩
      cases hm : r.transaction_id == tid with
      | true => simp [hm, setProcessed]
      | false => simp [hm, hp]
    · intro h r' h'
      rw [hc, findById_updateProcessed, h] at h'
      exact absurd h' (by simp)
    · intro r r' h h'
      rw [hchar r h] at h'
      cases h'
      cases hm : r.transaction_id == tid with
      | true =>
          cases hs : r.status with
          | PROCESSING => exact Or.inr ⟨rfl, by simp [hm, setProcessed]⟩
          | PROCESSED => exact Or.inl (by simp [hm, setProcessed, hs])
      | false => simp [hm]

/-- Concrete instantiation of C4: after finalizing "t1", a further
finalize operation keeps "t1" PROCESSED, and admitting a fresh id "t2"
creates it with status PROCESSING. -/
theorem c4_status_transitions_witness :
    (∃ r', findById
        (step (step stOne (Op.finalize false 0 rEx))
          (Op.finalize false 50 rEx)).store "t1" = some r' ∧
        r'.status = Status.PROCESSED) ∧
    (∀ r', findById
        (step stOne (Op.webhook noFault 9
          { pEx with transaction_id := some "t2" })).store "t2" = some r' →
        r'.status = Status.PROCESSING) := by
  constructor
  · exact (c4_status_transitions (step stOne (Op.finalize false 0 rEx))
      (Op.finalize false 50 rEx) "t1").1
      (setProcessed rEx (0 + finalizationDelay)) (by decide) (by decide)
  · exact (c4_status_transitions stOne
      (Op.webhook noFault 9 { pEx with transaction_id := some "t2" })
      "t2").2.1 (by decide)

/-! ## C5 -/

/-- The record-level invariant of C5: `processed_at` is set exactly when
the status is PROCESSED. -/
def statusTimeInv (st : AppState) : Prop :=
  ∀ r ∈ st.store, (r.processed_at.isSome ↔ r.status = Status.PROCESSED)

/-- Every operation preserves the C5 invariant. -/
lemma statusTimeInv_step {st : AppState} (h : statusTimeInv st) (op : Op) :
    statusTimeInv (step st op) := by
  rcases step_store_cases st op with hc | ⟨w, now, _, hc⟩ | ⟨tid, t, hc⟩ <;>
    intro r hr <;> rw [hc] at hr
  · exact h r hr
  · unfold insertRecord at hr
    rcases List.mem_append.mp hr with hr | hr
    · exact h r hr
    · rw [List.mem_singleton.mp hr]
      simp [mkRecord]
  · unfold updateProcessed at hr
    rcases List.mem_map.mp hr with ⟨r0, hr0, rfl⟩
    cases hm : r0.transaction_id == tid with
    | true => simp [hm, setProcessed]
    | false => simpa [hm] using h r0 hr0

/-- The C5 invariant holds in every reachable state. -/
lemma statusTimeInv_run (ops : List Op) : statusTimeInv (run ops) := by
  unfold run
  have hgen : ∀ (l : List Op) (st : AppState), statusTimeInv st →
      statusTimeInv (l.foldl step st) := by
    intro l
    induction l with
    | nil => intro st h; exact h
    | cons o l ih => intro st h; exact ih _ (statusTimeInv_step h o)
  refine hgen ops initState ?_
  intro r hr
  exact absurd hr (by simp [initState])

/-- C5: in every state reachable from the initial state by any sequence
of webhook admissions, finalizations and queries, every stored record
has `processed_at` non-null exactly when its status is PROCESSED. -/
theorem c5_processed_at_iff_processed (ops : List Op) (r : TransactionRecord)
    (hr : r ∈ (run ops).store) :
    r.processed_at.isSome ↔ r.status = Status.PROCESSED :=
  statusTimeInv_run ops r hr

/-- Concrete instantiation of C5: after admitting "t1" and finalizing it,
the stored record is PROCESSED with `processed_at` set. -/
theorem c5_processed_at_iff_processed_witness :
    (setProcessed rEx 30).processed_at.isSome
      ↔ (setProcessed rEx 30).status = Status.PROCESSED :=
  c5_processed_at_iff_processed
    [Op.webhook noFault 0 pEx, Op.finalize false 0 rEx]
    (setProcessed rEx 30) (by decide)

/-! ## C6 -/

/-- C6: the finalization delay is the fixed constant 30, and a successful
finalization is a frame-respecting update: the store keeps its length and
order; at every position, `transaction_id`, `source_account`,
`destination_account`, `amount`, `currency` and `created_at` are
unchanged; the record whose id matches gets `status = PROCESSED` and
`processed_at` equal to the finalization time; every record with a
different id is left exactly as it was. -/
theorem c6_finalize_frame (st : AppState) (startTime : Nat)
    (td : TransactionRecord) :
    finalizationDelay = 30 ∧
    (process_transaction false startTime td st).store.length
      = st.store.length ∧
    ∀ (i : Nat) (r : TransactionRecord), st.store[i]? = some r →
      ∃ r', (process_transaction false startTime td st).store[i]? = some r' ∧
        r'.transaction_id = r.transaction_id ∧
        r'.source_account = r.source_account ∧
        r'.destination_account = r.destination_account ∧
        r'.amount = r.amount ∧
        r'.currency = r.currency ∧
        r'.created_at = r.created_at ∧
        (r.transaction_id = td.transaction_id →
            r'.status = Status.PROCESSED ∧
            r'.processed_at = some (startTime + finalizationDelay)) ∧
        (r.transaction_id ≠ td.transaction_id → r' = r) := by
  have hstore : (process_transaction false startTime td st).store
      = st.store.map
          (fun r => if r.transaction_id == td.transaction_id
            then setProcessed r (startTime + finalizationDelay) else r) := rfl
  refine ⟨rfl, ?_, ?_⟩
  · rw [hstore, List.length_map]
  · intro i r h
    refine ⟨if r.transaction_id == td.transaction_id
        then setProcessed r (startTime + finalizationDelay) else r, ?_, ?_⟩
    · rw [hstore, List.getElem?_map, h]
      rfl
    · by_cases hm : r.transaction_id = td.transaction_id
      · have hb : (r.transaction_id == td.transaction_id) = true :=
          beq_iff_eq.mpr hm
        simp [hb, hm, setProcessed]
      · have hb : (r.transaction_id == td.transaction_id) = false := by
          simp [hm]
        simp [hb, hm]

/-- Concrete instantiation of C6: finalizing "t1" in the one-record state
makes the record PROCESSED at time 5 + 30 with its amount intact. -/
theorem c6_finalize_frame_witness :
    finalizationDelay = 30 ∧
    ∃ r', (process_transaction false 5 rEx stOne).store[0]? = some r' ∧
      r'.amount = rEx.amount ∧
      r'.status = Status.PROCESSED ∧
      r'.processed_at = some 35 := by
  have h := c6_finalize_frame stOne 5 rEx
  obtain ⟨r', hg, _, _, _, ham, _, _, him, _⟩ := h.2.2 0 rEx rfl
  exact ⟨h.1, r', hg, ham, (him rfl).1, (him rfl).2⟩

/-! ## C7 -/

/-- C7 counterexample: when the record identified by the transaction id
no longer exists, the zero-row update completes without raising, so the
task logs the SUCCESS message and no error-level entry at all — the
claimed failure report never happens.  (The store is indeed left
unchanged.) -/
theorem c7_counterexample :
    (process_transaction false 0 rEx initState).store = [] ∧
    ((process_transaction false 0 rEx initState).log.filter
        LogEntry.isError) = [] ∧
    LogEntry.infoProcessed "t1" ∈ (process_transaction false 0 rEx initState).log := by
  decide

/-- C7 amended: a finalization attempt never lets an exception escape
(the handler is total) and never retries (its only effect is the single
update).  When the update raises (store unreachable) the failure is
logged at error level and the store — hence every transaction, which
stays PROCESSING — is completely unchanged.  When the record no longer
exists the zero-row update succeeds silently: the store is unchanged and
the success message, not a failure, is logged.  Scheduled tasks are
never touched. -/
theorem c7_finalize_failure_contained (st : AppState) (startTime : Nat)
    (td : TransactionRecord) :
    ((process_transaction true startTime td st).store = st.store ∧
     LogEntry.errorProcessing td.transaction_id
        ∈ (process_transaction true startTime td st).log) ∧
    (findById st.store td.transaction_id = none →
        (process_transaction false startTime td st).store = st.store ∧
        (process_transaction false startTime td st).log
          = st.log ++ [LogEntry.infoStart td.transaction_id,
                       LogEntry.infoProcessed td.transaction_id]) ∧
    (∀ u, (process_transaction u startTime td st).tasks = st.tasks) := by
  refine ⟨⟨rfl, ?_⟩, ?_, ?_⟩
  · show LogEntry.errorProcessing td.transaction_id
      ∈ (st.log ++ [LogEntry.infoStart td.transaction_id])
          ++ [LogEntry.errorProcessing td.transaction_id]
    simp
  · intro h
    refine ⟨?_, ?_⟩
    · show updateProcessed st.store td.transaction_id
          (startTime + finalizationDelay) = st.store
      exact updateProcessed_of_absent h _
    · show (st.log ++ [LogEntry.infoStart td.transaction_id])
            ++ [LogEntry.infoProcessed td.transaction_id]
          = st.log ++ [LogEntry.infoStart td.transaction_id,
                       LogEntry.infoProcessed td.transaction_id]
      simp
  · intro u
    cases u <;> rfl

/-- Concrete instantiation of the amended C7: a raised update on the
one-record state leaves the record PROCESSING and logs the error. -/
theorem c7_finalize_failure_contained_witness :
    (process_transaction true 0 rEx stOne).store = stOne.store ∧
    LogEntry.errorProcessing "t1" ∈ (process_transaction true 0 rEx stOne).log ∧
    (process_transaction false 0 rEx { stOne with store := [] }).store = [] := by
  have h := c7_finalize_failure_contained stOne 0 rEx
  have h2 := c7_finalize_failure_contained { stOne with store := [] } 0 rEx
  exact ⟨h.1.1, h.1.2, (h2.2.1 rfl).1⟩

/-! ## C8 -/

/-- C8 counterexample: a payload whose `transaction_id` is the empty
string passes pydantic validation (no non-emptiness constraint exists in
`WebhookRequest`), so the endpoint returns 202, not 422, and a record IS
created. -/
theorem c8_counterexample :
    (handle_webhook noFault 0
        { transaction_id := some "", source_account := some "a",
          destination_account := some "b", amount := some 5,
          currency := some "USD" } initState).1 = 202 ∧
    (handle_webhook noFault 0
        { transaction_id := some "", source_account := some "a",
          destination_account := some "b", amount := some 5,
          currency := some "USD" } initState).1 ≠ 422 ∧
    (handle_webhook noFault 0
        { transaction_id := some "", source_account := some "a",
          destination_account := some "b", amount := some 5,
          currency := some "USD" } initState).2.store ≠ [] := by
  decide

/-- C8 amended: every webhook request whose body is missing a required
field (or carries a value of the wrong type, modelled as absent) is
rejected with 422 before any store interaction and no record is created —
the state is returned untouched whatever the store's condition.  Empty
strings in the string fields and any parsed amount are accepted:
validation checks presence and type only. -/
theorem c8_missing_field_rejected (f : StoreFault) (now : Nat)
    (p : RawPayload) (st : AppState)
    (h : p.transaction_id = none ∨ p.source_account = none ∨
         p.destination_account = none ∨ p.amount = none ∨
         p.currency = none) :
    (handle_webhook f now p st).1 = 422 ∧
    (handle_webhook f now p st).2 = st := by
  have hv : validatePayload p = none := by
    unfold validatePayload
    rcases h with h | h | h | h | h <;> rw [h] <;>
      cases p.transaction_id <;> cases p.source_account <;>
      cases p.destination_account <;> cases p.amount <;>
      cases p.currency <;> rfl
  unfold handle_webhook
  rw [hv]
  exact ⟨rfl, rfl⟩

/-- Concrete instantiation of the amended C8: a body without
`transaction_id` is rejected with 422 and the state is untouched even
with a broken store. -/
theorem c8_missing_field_rejected_witness :
    (handle_webhook
        { lookupRaises := true, insertRaises := true,
          insertConflicts := true } 0
        { transaction_id := none, source_account := some "a",
          destination_account := some "b", amount := some 5,
          currency := some "USD" } initState).1 = 422 ∧
    (handle_webhook
        { lookupRaises := true, insertRaises := true,
          insertConflicts := true } 0
        { transaction_id := none, source_account := some "a",
          destination_account := some "b", amount := some 5,
          currency := some "USD" } initState).2 = initState :=
  c8_missing_field_rejected _ 0 _ initState (Or.inl rfl)

/-! ## C9 -/

/-- C9: the query endpoint is a pure read — the state after the call is
the input state, and the store is untouched even when the lookup raises;
with a healthy store it returns 404 when no record with the id exists,
and 200 together with every stored field of the record when one does. -/
theorem c9_query_contract (st : AppState) (id : String) :
    (get_transaction false id st).2.2 = st ∧
    (∀ b, (get_transaction b id st).2.2.store = st.store) ∧
    (∀ b, (get_transaction b id st).2.2.tasks = st.tasks) ∧
    (findById st.store id = none → (get_transaction false id st).1 = 404) ∧
    (∀ r, findById st.store id = some r →
        (get_transaction false id st).1 = 200 ∧
        (get_transaction false id st).2.1
          = some { transaction_id := r.transaction_id,
                   source_account := r.source_account,
                   destination_account := r.destination_account,
                   amount := r.amount,
                   currency := r.currency,
                   status := r.status,
                   created_at := r.created_at,
                   processed_at := r.processed_at }) := by
  refine ⟨?_, ?_, ?_, ?_, ?_⟩
  · show (match findById st.store id with
        | none => ((404 : Nat), (none : Option TransactionResponse), st)
        | some r => (200, some _, st)).2.2 = st
    cases findById st.store id <;> rfl
  · intro b
    cases b with
    | true => rfl
    | false =>
        show (get_transaction false id st).2.2.store = st.store
        unfold get_transaction
        cases hf : findById st.store id <;> simp [hf]
  · intro b
    cases b with
    | true => rfl
    | false =>
        show (get_transaction false id st).2.2.tasks = st.tasks
        unfold get_transaction
        cases hf : findById st.store id <;> simp [hf]
  · intro h
    unfold get_transaction
    simp [h]
  · intro r h
    unfold get_transaction
    simp [h]

/-- Concrete instantiation of C9: querying "t1" in the one-record state
returns 200 with the stored fields and leaves the state unchanged;
querying a missing id returns 404. -/
theorem c9_query_contract_witness :
    (get_transaction false "t1" stOne).2.2 = stOne ∧
    (get_transaction false "t1" stOne).1 = 200 ∧
    (get_transaction false "t2" stOne).1 = 404 := by
  have h1 := c9_query_contract stOne "t1"
  have h2 := c9_query_contract stOne "t2"
  exact ⟨h1.1, (h1.2.2.2.2 rEx (by decide)).1, h2.2.2.2.1 (by decide)⟩

end PaymentWebhook
